import Mathlib

/-!
Shallow embedding of the places-ingestion pipeline (`main.py`): polygon
loading, grid sampling, the nearby-search client, per-place feature
assembly, and the `/run` harvesting endpoint.

Python floats are modelled as rationals; JSON objects are modelled as
structures whose fields are `Option`s (`none` = key absent or null);
Python exceptions are modelled with `Except`; the unbounded `while`
loops of the grid walk are modelled with explicit fuel, `none` standing
for non-termination within the given fuel.
-/

/-- A `geometry.location` object of a search result: `{lat, lng}`. -/
structure Location where
  lat : Option ℚ
  lng : Option ℚ
deriving DecidableEq

/-- A `geometry` object of a search result. -/
structure PlaceGeometry where
  location : Option Location
deriving DecidableEq

/-- A `plus_code` object of a search result. -/
structure PlusCode where
  global_code : Option String
deriving DecidableEq

/-- One raw search result record, as read by `feature_from_place` and the
harvest loop of `run_ingestion`. -/
structure Place where
  place_id : Option String
  name : Option String
  types : Option (List String)
  vicinity : Option String
  formatted_address : Option String
  rating : Option ℚ
  user_ratings_total : Option ℕ
  plus_code : Option PlusCode
  geometry : Option PlaceGeometry
deriving DecidableEq

/-- The JSON body of one nearby-search response: `results[]` plus an
optional `next_page_token`. -/
structure NearbyResp where
  results : Option (List Place)
  next_page_token : Option String
deriving DecidableEq

/-- The `properties` dict built by `feature_from_place` (lines 100-109). -/
structure Props where
  place_id : Option String
  name : Option String
  types : Option (List String)
  vicinity : Option String
  rating : Option ℚ
  user_ratings_total : Option ℕ
  plus_code : Option String
  collected_at : String
deriving DecidableEq

/-- A GeoJSON point feature as built by `feature_from_place`: the geometry
is `{type: "Point", coordinates: [lng, lat]}`. -/
structure Feature where
  lng : ℚ
  lat : ℚ
  props : Props
deriving DecidableEq

/-- The loaded polygon, as consumed by the pipeline: its shapely `bounds`
`(minx, miny, maxx, maxy)` and its shapely `covers` predicate
(boundary-inclusive containment), taken abstractly as a function on
`(x, y) = (lon, lat)` pairs. -/
structure Polygon where
  minx : ℚ
  miny : ℚ
  maxx : ℚ
  maxy : ℚ
  covers : ℚ × ℚ → Bool

/-- Python `a or b` on two optional strings: `None` and `""` are falsy. -/
def pyOr (a b : Option String) : Option String :=
  match a with
  | some s => if s = "" then b else some s
  | none => b

/-- The `properties` dict of `feature_from_place` (lines 100-109); `now` is
the `datetime.utcnow().isoformat()` string. -/
def assembled_props (now : String) (place : Place) : Props :=
  { place_id := place.place_id
    name := place.name
    types := place.types
    vicinity := pyOr place.vicinity place.formatted_address
    rating := place.rating
    user_ratings_total := place.user_ratings_total
    plus_code :=
      match place.plus_code with
      | none => none
      | some pc => pc.global_code
    collected_at := now ++ "Z" }

/-- `feature_from_place` (lines 95-116): reject when `geometry.location`
lacks `lat` or `lng`, otherwise build a point feature. -/
def feature_from_place (now : String) (place : Place) : Option Feature :=
  let loc : Location :=
    match place.geometry with
    | none => { lat := none, lng := none }
    | some g => g.location.getD { lat := none, lng := none }
  match loc.lat, loc.lng with
  | some lat, some lng =>
      some { lng := lng, lat := lat, props := assembled_props now place }
  | _, _ => none

/-- A feature with its `collected_at` timestamp blanked, for comparing two
assemblies of the same raw result. -/
def strip_time (f : Feature) : Feature :=
  { f with props := { f.props with collected_at := "" } }

/-- Inner `while lon <= maxx` loop of `generate_grid_points_within_polygon`
(lines 70-75), with fuel. The accumulator keeps the points collected so far
and a count of candidate coordinates tested against `covers`. -/
def grid_inner (P : Polygon) (step lat : ℚ) :
    ℕ → ℚ → List (ℚ × ℚ) → ℕ → Option (List (ℚ × ℚ) × ℕ)
  | 0, lon, acc, tested =>
      if lon ≤ P.maxx then none else some (acc, tested)
  | fuel + 1, lon, acc, tested =>
      if lon ≤ P.maxx then
        let acc2 := if P.covers (lon, lat) then acc ++ [(lat, lon)] else acc
        grid_inner P step lat fuel (lon + step) acc2 (tested + 1)
      else some (acc, tested)

/-- Outer `while lat <= maxy` loop of `generate_grid_points_within_polygon`
(lines 68-76), with fuel; each row starts its longitude walk at `minx`. -/
def grid_outer (P : Polygon) (step : ℚ) (innerFuel : ℕ) :
    ℕ → ℚ → List (ℚ × ℚ) → ℕ → Option (List (ℚ × ℚ) × ℕ)
  | 0, lat, acc, tested =>
      if lat ≤ P.maxy then none else some (acc, tested)
  | fuel + 1, lat, acc, tested =>
      if lat ≤ P.maxy then
        match grid_inner P step lat innerFuel P.minx acc tested with
        | none => none
        | some (acc2, t2) => grid_outer P step innerFuel fuel (lat + step) acc2 t2
      else some (acc, tested)

/-- The whole grid walk of `generate_grid_points_within_polygon`
(lines 63-78), started at `(miny, minx)`. -/
def grid_walk (fuel : ℕ) (P : Polygon) (step : ℚ) :
    Option (List (ℚ × ℚ) × ℕ) :=
  grid_outer P step fuel fuel P.miny [] 0

/-- `generate_grid_points_within_polygon` (lines 63-78): the list of
`(lat, lon)` points kept, `none` when the walk does not terminate within
the fuel. -/
def generate_grid_points_within_polygon (fuel : ℕ) (P : Polygon) (step : ℚ) :
    Option (List (ℚ × ℚ)) :=
  (grid_walk fuel P step).map Prod.fst

/-- The number of candidate grid coordinates tested against `covers` by the
same walk. -/
def grid_candidates_tested (fuel : ℕ) (P : Polygon) (step : ℚ) : Option ℕ :=
  (grid_walk fuel P step).map Prod.snd

/-- The grid walk terminates on some fuel. -/
def grid_generation_terminates (P : Polygon) (step : ℚ) : Prop :=
  ∃ fuel, (generate_grid_points_within_polygon fuel P step).isSome = true

/-- The unit-square polygon with corners (0,0) and (1,1): shapely bounds and
boundary-inclusive `covers` of that square. -/
def unitSquare : Polygon :=
  { minx := 0, miny := 0, maxx := 1, maxy := 1,
    covers := fun q =>
      decide (0 ≤ q.1) && decide (q.1 ≤ 1) && decide (0 ≤ q.2) && decide (q.2 ≤ 1) }

/-- `places_nearby` (lines 81-92). `pages` models an HTTP GET against the
nearby-search endpoint, indexed by the `pagetoken` query parameter of the
request (`none` on an initial request); an `Except.error` is a timeout or a
non-success status raised by `raise_for_status`. The function issues exactly
one request, with no `pagetoken`, and returns its JSON body; the second
component logs the `pagetoken` of every request issued. -/
def places_nearby (pages : Option String → Except Unit NearbyResp) :
    Except Unit NearbyResp × List (Option String) :=
  (pages none, [none])

/-- The exception a direct dict subscript raises on a missing key. -/
inductive RunExn where
  | keyError
deriving DecidableEq

/-- The harvest loop's mutable state: the `features` list and the `seen`
set of place_ids (lines 242-243), the latter as a list. -/
abbrev HarvestState := List Feature × List String

/-- The body of `for place in resp.get("results", [])` (lines 254-268):
skip on a falsy or already-seen place_id, read the place's own location by
direct subscripts (KeyError when `geometry`, `location`, `lng` or `lat` is
absent), keep it only when the polygon covers that location and the
assembler accepts it. -/
def process_place (P : Polygon) (now : String) (st : HarvestState)
    (place : Place) : Except RunExn HarvestState :=
  match place.place_id with
  | none => .ok st
  | some pid =>
    if pid = "" ∨ pid ∈ st.2 then .ok st
    else
      match place.geometry with
      | none => .error .keyError
      | some g =>
        match g.location with
        | none => .error .keyError
        | some loc =>
          match loc.lng, loc.lat with
          | some lng, some lat =>
            if P.covers (lng, lat) then
              match feature_from_place now place with
              | some feat => .ok (st.1 ++ [feat], st.2 ++ [pid])
              | none => .ok st
            else .ok st
          | _, _ => .error .keyError

/-- Fold `process_place` over one response's `results` list. -/
def process_results (P : Polygon) (now : String) :
    HarvestState → List Place → Except RunExn HarvestState
  | st, [] => .ok st
  | st, place :: rest =>
    match process_place P now st place with
    | .error e => .error e
    | .ok st2 => process_results P now st2 rest

/-- The `for lat, lon in grid` harvest loop of `run_ingestion`
(lines 246-268): a failing `places_nearby` call is skipped with `continue`;
a successful one counts one API call and has its results processed. -/
def harvest_loop (P : Polygon)
    (search_pages : ℚ → ℚ → Option String → Except Unit NearbyResp)
    (now : String) :
    HarvestState → ℕ → List (ℚ × ℚ) → Except RunExn (HarvestState × ℕ)
  | st, calls, [] => .ok (st, calls)
  | st, calls, (lat, lon) :: rest =>
    match (places_nearby (search_pages lat lon)).1 with
    | .error _ => harvest_loop P search_pages now st calls rest
    | .ok resp =>
      match process_results P now st (resp.results.getD []) with
      | .error e => .error e
      | .ok st2 => harvest_loop P search_pages now st2 (calls + 1) rest

/-- The observable outcome of the `/run` endpoint (lines 221-283). Storage
and warehouse delivery are abstracted: a successful run carries the feature
list it uploads and the `total_pois` and `api_calls` counts it reports. -/
inductive RunResult where
  | keyFailure (details : String)
  | polygonFailure (details : String)
  | gridEmpty
  | fuelExhausted
  | uncaught (e : RunExn)
  | ok (features : List Feature) (total_pois : ℕ) (api_calls : ℕ)
deriving DecidableEq

/-- The keys of the JSON object `run_ingestion` returns on success
(lines 276-283). -/
def run_response_keys : List String :=
  ["message", "gcs_uri", "file", "total_pois", "api_calls", "bq_job"]

/-- `run_ingestion` (lines 221-283): fetch the key, load the polygon,
generate the grid, reject an empty grid with the "Grid empty" response,
harvest, and report. `fuelExhausted` is the fuel model's stand-in for a
grid walk that never terminates; an exception escaping the harvest loop
aborts the run (`uncaught`). -/
def run_ingestion (getKey : Except String Unit)
    (loadPoly : Except String Polygon) (step : ℚ) (fuel : ℕ)
    (search_pages : ℚ → ℚ → Option String → Except Unit NearbyResp)
    (now : String) : RunResult :=
  match getKey with
  | .error e => .keyFailure e
  | .ok _ =>
    match loadPoly with
    | .error e => .polygonFailure e
    | .ok P =>
      match generate_grid_points_within_polygon fuel P step with
      | none => .fuelExhausted
      | some grid =>
        if grid.isEmpty then .gridEmpty
        else
          match harvest_loop P search_pages now ([], []) 0 grid with
          | .error e => .uncaught e
          | .ok ((features, _), calls) => .ok features features.length calls

/-- A decoded GeoJSON-like document, restricted to the keys the loader
reads: `type`, `features` and `geometry` (`none` = key absent or null). -/
inductive GJ where
  | mk (type : Option String) (features : Option (List GJ)) (geometry : Option GJ)

/-- The `type` key of a document. -/
def GJ.type : GJ → Option String
  | .mk t _ _ => t

/-- The `features` key of a document. -/
def GJ.features : GJ → Option (List GJ)
  | .mk _ f _ => f

/-- The `geometry` key of a document. -/
def GJ.geometry : GJ → Option GJ
  | .mk _ _ g => g

/-- The exceptions geometry loading can raise: a missing key, indexing an
empty `features` list, or shapely `shape` rejecting the resolved value. -/
inductive LoadErr where
  | keyMissing
  | indexOutOfRange
  | shapeRejected
deriving DecidableEq

/-- The geometry-resolution branch of `load_polygon_from_gcs`
(lines 53-58): a FeatureCollection's first feature's geometry, a Feature's
geometry, otherwise the document itself. -/
def resolve_geometry (gj : GJ) : Except LoadErr GJ :=
  if gj.type = some "FeatureCollection" then
    match gj.features with
    | none => .error .keyMissing
    | some [] => .error .indexOutOfRange
    | some (f :: _) =>
      match f.geometry with
      | none => .error .keyMissing
      | some g => .ok g
  else if gj.type = some "Feature" then
    match gj.geometry with
    | none => .error .keyMissing
    | some g => .ok g
  else .ok gj

/-- The geometry types shapely's `shape` constructs. -/
def shapely_geom_types : List String :=
  ["Point", "MultiPoint", "LineString", "MultiLineString", "LinearRing",
   "Polygon", "MultiPolygon", "GeometryCollection"]

/-- Models `shapely.geometry.shape` (line 60): builds a geometry object for
any of the standard GeoJSON geometry types and raises for a missing or
unrecognized `type`; coordinate parsing is abstracted and the geometry
value is returned unchanged. -/
def shape (geom : GJ) : Except LoadErr GJ :=
  match geom.type with
  | some t => if t ∈ shapely_geom_types then .ok geom else .error .shapeRejected
  | none => .error .shapeRejected

/-- `load_polygon_from_gcs` (lines 45-60) after the blob download: resolve
the geometry, then hand it to `shape`. -/
def load_polygon_from_gcs (gj : GJ) : Except LoadErr GJ :=
  match resolve_geometry gj with
  | .error e => .error e
  | .ok geom => shape geom

/-- The harvest invariant: features are pairwise distinct on place_id, every
feature's place_id is recorded in `seen`, and every feature's own coordinate
is covered by the polygon. -/
def HInv (P : Polygon) (st : HarvestState) : Prop :=
  st.1.Pairwise (fun a b => a.props.place_id ≠ b.props.place_id)
  ∧ (∀ f ∈ st.1, ∃ p, f.props.place_id = some p ∧ p ∈ st.2)
  ∧ ∀ f ∈ st.1, P.covers (f.lng, f.lat) = true

/-- A degenerate polygon covering nothing: its grid is empty. -/
def emptyPoly : Polygon :=
  { minx := 0, miny := 0, maxx := 0, maxy := 0, covers := fun _ => false }

/-- A one-point bounding box whose `covers` accepts everything. -/
def boxAll : Polygon :=
  { minx := 0, miny := 0, maxx := 0, maxy := 0, covers := fun _ => true }

/-- A 1-by-10 bounding box accepting everything: its unit-step grid has the
ten points `(0,0) .. (9,0)`. -/
def tenRow : Polygon :=
  { minx := 0, miny := 0, maxx := 0, maxy := 9, covers := fun _ => true }

/-- An upstream where the search call at latitude 0 fails (timeout or
non-success status) and every other call succeeds with no results. -/
def spTen : ℚ → ℚ → Option String → Except Unit NearbyResp :=
  fun lat _ _ =>
    if lat = 0 then .error ()
    else .ok { results := some [], next_page_token := none }

/-- A raw result with place_id "a" at the origin. -/
def pA : Place :=
  { place_id := some "a", name := some "A", types := none, vicinity := none,
    formatted_address := none, rating := none, user_ratings_total := none,
    plus_code := none,
    geometry := some { location := some { lat := some 0, lng := some 0 } } }

/-- A duplicate of `pA`: same place_id, different name. -/
def pA2 : Place := { pA with name := some "A2" }

/-- A raw result with place_id "b" at the origin. -/
def pB : Place := { pA with place_id := some "b", name := some "B" }

/-- An upstream returning `[pA, pA2, pB]` at every sample point. -/
def spDup : ℚ → ℚ → Option String → Except Unit NearbyResp :=
  fun _ _ _ => .ok { results := some [pA, pA2, pB], next_page_token := none }

/-- The feature assembled from `pA` at timestamp "T". -/
def fA : Feature :=
  { lng := 0, lat := 0,
    props := { place_id := some "a", name := some "A", types := none,
               vicinity := none, rating := none, user_ratings_total := none,
               plus_code := none, collected_at := "TZ" } }

/-- The feature assembled from `pB` at timestamp "T". -/
def fB : Feature :=
  { fA with props := { fA.props with place_id := some "b", name := some "B" } }

/-- A raw result that carries a place_id but whose `geometry` object lacks
the `location` key. -/
def orphanPlace : Place :=
  { place_id := some "pid1", name := some "X", types := none, vicinity := none,
    formatted_address := none, rating := none, user_ratings_total := none,
    plus_code := none, geometry := some { location := none } }

/-- An upstream returning only `orphanPlace` at every sample point. -/
def spOrphan : ℚ → ℚ → Option String → Except Unit NearbyResp :=
  fun _ _ _ => .ok { results := some [orphanPlace], next_page_token := none }

/-- A response that carries a continuation token. -/
def respTok : NearbyResp :=
  { results := some [], next_page_token := some "tok" }

/-- An upstream always answering `respTok`, whatever the pagetoken. -/
def pagesTok : Option String → Except Unit NearbyResp :=
  fun _ => .ok respTok

/-- A bare GeoJSON Point geometry document. -/
def pointDoc : GJ := GJ.mk (some "Point") none none

/-- A bare GeoJSON Polygon geometry document. -/
def polyDoc : GJ := GJ.mk (some "Polygon") none none

/-- A Feature document wrapping `polyDoc`. -/
def featDoc : GJ := GJ.mk (some "Feature") none (some polyDoc)

/-- A FeatureCollection document whose first feature is `featDoc`. -/
def fcDoc : GJ := GJ.mk (some "FeatureCollection") (some [featDoc]) none

/-- A raw result exercising the address fallback: empty `vicinity`, present
`formatted_address`. -/
def pFallback : Place :=
  { pA with place_id := some "c", vicinity := some "",
            formatted_address := some "12 High St" }

/-! ## Grid lemmas -/

/-- Every point the inner longitude walk adds has passed `covers`. -/
lemma grid_inner_covers (P : Polygon) (step lat : ℚ) :
    ∀ (fuel : ℕ) (lon : ℚ) (acc : List (ℚ × ℚ)) (t : ℕ)
      (out : List (ℚ × ℚ)) (tout : ℕ),
      (∀ q ∈ acc, P.covers (q.2, q.1) = true) →
      grid_inner P step lat fuel lon acc t = some (out, tout) →
      ∀ q ∈ out, P.covers (q.2, q.1) = true := by
  intro fuel
  induction fuel with
  | zero =>
    intro lon acc t out tout hacc h
    by_cases hc : lon ≤ P.maxx
    · simp [grid_inner, hc] at h
    · simp [grid_inner, hc] at h
      obtain ⟨h1, _⟩ := h
      subst h1
      exact hacc
  | succ n ih =>
    intro lon acc t out tout hacc h
    by_cases hc : lon ≤ P.maxx
    · simp only [grid_inner, if_pos hc] at h
      by_cases hcov : P.covers (lon, lat) = true
      · refine ih (lon + step) (acc ++ [(lat, lon)]) (t + 1) out tout ?_ ?_
        · intro q hq
          rcases List.mem_append.mp hq with hq1 | hq2
          · exact hacc q hq1
          · rcases List.mem_singleton.mp hq2 with rfl
            exact hcov
        · simpa [hcov] using h
      · refine ih (lon + step) acc (t + 1) out tout hacc ?_
        simpa [hcov] using h
    · simp [grid_inner, hc] at h
      obtain ⟨h1, _⟩ := h
      subst h1
      exact hacc

/-- Every point the outer latitude walk adds has passed `covers`. -/
lemma grid_outer_covers (P : Polygon) (step : ℚ) (innerFuel : ℕ) :
    ∀ (fuel : ℕ) (lat : ℚ) (acc : List (ℚ × ℚ)) (t : ℕ)
      (out : List (ℚ × ℚ)) (tout : ℕ),
      (∀ q ∈ acc, P.covers (q.2, q.1) = true) →
      grid_outer P step innerFuel fuel lat acc t = some (out, tout) →
      ∀ q ∈ out, P.covers (q.2, q.1) = true := by
  intro fuel
  induction fuel with
  | zero =>
    intro lat acc t out tout hacc h
    by_cases hc : lat ≤ P.maxy
    · simp [grid_outer, hc] at h
    · simp [grid_outer, hc] at h
      obtain ⟨h1, _⟩ := h
      subst h1
      exact hacc
  | succ n ih =>
    intro lat acc t out tout hacc h
    by_cases hc : lat ≤ P.maxy
    · simp only [grid_outer, if_pos hc] at h
      cases hin : grid_inner P step lat innerFuel P.minx acc t with
      | none => rw [hin] at h; simp at h
      | some pr =>
        rw [hin] at h
        simp only at h
        exact ih (lat + step) pr.1 pr.2 out tout
          (grid_inner_covers P step lat innerFuel P.minx acc t pr.1 pr.2 hacc
            (by simpa using hin)) (by simpa using h)
    · simp [grid_outer, hc] at h
      obtain ⟨h1, _⟩ := h
      subst h1
      exact hacc

/-- With a non-positive step the inner longitude walk never leaves the
bounding box, so it exhausts any fuel. -/
lemma grid_inner_nonpos_stuck (P : Polygon) (step lat : ℚ) (hs : step ≤ 0) :
    ∀ (fuel : ℕ) (lon : ℚ) (acc : List (ℚ × ℚ)) (t : ℕ),
      lon ≤ P.maxx → grid_inner P step lat fuel lon acc t = none := by
  intro fuel
  induction fuel with
  | zero => intro lon acc t h; simp [grid_inner, h]
  | succ n ih =>
    intro lon acc t h
    simp only [grid_inner, if_pos h]
    exact ih (lon + step) _ (t + 1) (by linarith)

/-- With a non-positive step and a nonempty bounding box the whole walk
exhausts any fuel. -/
lemma grid_walk_nonpos_stuck (P : Polygon) (step : ℚ) (fuel : ℕ)
    (hs : step ≤ 0) (hx : P.minx ≤ P.maxx) (hy : P.miny ≤ P.maxy) :
    grid_walk fuel P step = none := by
  unfold grid_walk
  cases fuel with
  | zero => simp [grid_outer, hy]
  | succ n =>
    simp only [grid_outer, if_pos hy]
    rw [grid_inner_nonpos_stuck P step P.miny hs (n + 1) P.minx [] 0 hx]

/-- C2: for every polygon `P` and step size, whenever the grid generator
returns a point list, every returned `(lat, lon)` point satisfies
`P.covers (lon, lat)` — boundary-inclusive containment as tested by the
generator itself. -/
theorem grid_points_covered (P : Polygon) (step : ℚ) (fuel : ℕ)
    (pts : List (ℚ × ℚ)) (p : ℚ × ℚ)
    (h : generate_grid_points_within_polygon fuel P step = some pts)
    (hp : p ∈ pts) : P.covers (p.2, p.1) = true := by
  unfold generate_grid_points_within_polygon at h
  cases hw : grid_walk fuel P step with
  | none => rw [hw] at h; simp at h
  | some pr =>
    rw [hw] at h
    simp only [Option.map_some', Option.some.injEq] at h
    unfold grid_walk at hw
    refine grid_outer_covers P step fuel fuel P.miny [] 0 pr.1 pr.2 (by simp) ?_ p ?_
    · simpa using hw
    · rw [h]; exact hp

/-- Witness for C2: on the unit square with step 1/2, the generator returns
a list whose first point `(0, 0)` is indeed covered. -/
theorem grid_points_covered_witness :
    generate_grid_points_within_polygon 10 unitSquare (1/2) =
      some [(0, 0), (0, 1/2), (0, 1), (1/2, 0), (1/2, 1/2), (1/2, 1),
            (1, 0), (1, 1/2), (1, 1)]
    ∧ unitSquare.covers (0, 0) = true := by
  have h : generate_grid_points_within_polygon 10 unitSquare (1/2) =
      some [(0, 0), (0, 1/2), (0, 1), (1/2, 0), (1/2, 1/2), (1/2, 1),
            (1, 0), (1, 1/2), (1, 1)] := by
    norm_num [generate_grid_points_within_polygon, grid_walk, grid_outer,
      grid_inner, unitSquare]
  exact ⟨h, grid_points_covered unitSquare (1/2) 10 _ ((0 : ℚ), (0 : ℚ)) h
    (List.mem_cons_self _ _)⟩

/-- C6 (amended): grid generation performs no validation of the step; for
any step that is zero or negative and any polygon with a nonempty bounding
box, the walk never terminates — it returns `none` for every fuel — rather
than failing with a configuration error. -/
theorem grid_nonpositive_step_no_result (P : Polygon) (step : ℚ) (fuel : ℕ)
    (hs : step ≤ 0) (hx : P.minx ≤ P.maxx) (hy : P.miny ≤ P.maxy) :
    generate_grid_points_within_polygon fuel P step = none := by
  unfold generate_grid_points_within_polygon
  rw [grid_walk_nonpos_stuck P step fuel hs hx hy]
  rfl

/-- Witness for C6 (amended): the unit square with step 0 at fuel 7. -/
theorem grid_nonpositive_step_no_result_witness :
    (0 : ℚ) ≤ 0 ∧ unitSquare.minx ≤ unitSquare.maxx
    ∧ unitSquare.miny ≤ unitSquare.maxy
    ∧ generate_grid_points_within_polygon 7 unitSquare 0 = none := by
  refine ⟨le_refl 0, by norm_num [unitSquare], by norm_num [unitSquare], ?_⟩
  exact grid_nonpositive_step_no_result unitSquare 0 7 (le_refl 0)
    (by norm_num [unitSquare]) (by norm_num [unitSquare])

/-- Counterexample for C6: on the unit square with step 0 the generator
does not fail with an `InvalidConfiguration` error — it does not terminate
at all(no fuel suffices). -/
theorem grid_zero_step_diverges : ¬ grid_generation_terminates unitSquare 0 := by
  rintro ⟨fuel, hf⟩
  rw [generate_grid_points_within_polygon, grid_walk_nonpos_stuck unitSquare 0 fuel
    (le_refl 0) (by norm_num [unitSquare]) (by norm_num [unitSquare])] at hf
  simp at hf

/-- C7 (amended): on the unit-square polygon with corners (0,0), (1,1) and
step 1/2, the generator tests exactly 9 candidate coordinates (a 3-by-3
walk, both bounds inclusive), all of which are inside, and returns exactly
those 9 sample points. -/
theorem unit_square_grid_nine :
    generate_grid_points_within_polygon 10 unitSquare (1/2) =
      some [(0, 0), (0, 1/2), (0, 1), (1/2, 0), (1/2, 1/2), (1/2, 1),
            (1, 0), (1, 1/2), (1, 1)]
    ∧ grid_candidates_tested 10 unitSquare (1/2) = some 9
    ∧ ([(0, 0), (0, 1/2), (0, 1), (1/2, 0), (1/2, 1/2), (1/2, 1),
        (1, 0), (1, 1/2), (1, 1)] : List (ℚ × ℚ)).all
        (fun p => unitSquare.covers (p.2, p.1)) = true := by
  refine ⟨?_, ?_, ?_⟩
  · norm_num [generate_grid_points_within_polygon, grid_walk, grid_outer,
      grid_inner, unitSquare]
  · norm_num [grid_candidates_tested, grid_walk, grid_outer, grid_inner,
      unitSquare]
  · norm_num [unitSquare]

/-- Counterexample for C7: with step 1/2 on the unit square, neither the
number of candidates tested nor the number of points returned is 4. -/
theorem unit_square_grid_not_four :
    (generate_grid_points_within_polygon 10 unitSquare (1/2)).map
      List.length ≠ some 4
    ∧ grid_candidates_tested 10 unitSquare (1/2) ≠ some 4 := by
  have h1 : generate_grid_points_within_polygon 10 unitSquare (1/2) =
      some [(0, 0), (0, 1/2), (0, 1), (1/2, 0), (1/2, 1/2), (1/2, 1),
            (1, 0), (1, 1/2), (1, 1)] := by
    norm_num [generate_grid_points_within_polygon, grid_walk, grid_outer,
      grid_inner, unitSquare]
  have h2 : grid_candidates_tested 10 unitSquare (1/2) = some 9 := by
    norm_num [grid_candidates_tested, grid_walk, grid_outer, grid_inner,
      unitSquare]
  rw [h1, h2]
  refine ⟨by simp, by simp⟩

/-! ## Harvest lemmas -/

/-- Under the guards of the harvest loop the assembler accepts the place and
copies its location and properties. -/
lemma feature_from_place_accepts (now : String) (place : Place)
    (g : PlaceGeometry) (loc : Location) (lat lng : ℚ)
    (hg : place.geometry = some g) (hl : g.location = some loc)
    (hlat : loc.lat = some lat) (hlng : loc.lng = some lng) :
    feature_from_place now place =
      some { lng := lng, lat := lat, props := assembled_props now place } := by
  simp [feature_from_place, hg, hl, hlat, hlng]

/-- One result-processing step preserves the harvest invariant. -/
lemma process_place_inv (P : Polygon) (now : String) (st st2 : HarvestState)
    (place : Place) (hInv : HInv P st)
    (h : process_place P now st place = .ok st2) : HInv P st2 := by
  unfold process_place at h
  cases hpid : place.place_id with
  | none =>
    rw [hpid] at h
    simp only [Except.ok.injEq] at h
    rw [← h]; exact hInv
  | some pid =>
    rw [hpid] at h
    by_cases hskip : pid = "" ∨ pid ∈ st.2
    · simp only [if_pos hskip, Except.ok.injEq] at h
      rw [← h]; exact hInv
    · simp only [if_neg hskip] at h
      push_neg at hskip
      obtain ⟨hne, hnotin⟩ := hskip
      cases hg : place.geometry with
      | none => simp [hg] at h
      | some g =>
        simp only [hg] at h
        cases hl : g.location with
        | none => simp [hl] at h
        | some loc =>
          simp only [hl] at h
          cases hlng : loc.lng with
          | none => simp [hlng] at h
          | some lng =>
            simp only [hlng] at h
            cases hlat : loc.lat with
            | none => simp [hlat] at h
            | some lat =>
              simp only [hlat] at h
              by_cases hcov : P.covers (lng, lat) = true
              · rw [if_pos hcov,
                  feature_from_place_accepts now place g loc lat lng hg hl hlat hlng] at h
                simp only [Except.ok.injEq] at h
                rw [← h]
                obtain ⟨hPw, hSeen, hCov⟩ := hInv
                have hfpid :
                    (assembled_props now place).place_id = some pid := by
                  simp [assembled_props, hpid]
                refine ⟨?_, ?_, ?_⟩
                · rw [List.pairwise_append]
                  refine ⟨hPw, by simp, ?_⟩
                  intro a ha b hb
                  rcases List.mem_singleton.mp hb with rfl
                  obtain ⟨q, hq, hqin⟩ := hSeen a ha
                  simp only [hq, hfpid, ne_eq, Option.some.injEq]
                  intro hqp
                  exact hnotin (hqp ▸ hqin)
                · intro f hf
                  rcases List.mem_append.mp hf with hf1 | hf2
                  · obtain ⟨q, hq, hqin⟩ := hSeen f hf1
                    exact ⟨q, hq, List.mem_append_left _ hqin⟩
                  · rcases List.mem_singleton.mp hf2 with rfl
                    exact ⟨pid, hfpid, List.mem_append_right _ (by simp)⟩
                · intro f hf
                  rcases List.mem_append.mp hf with hf1 | hf2
                  · exact hCov f hf1
                  · rcases List.mem_singleton.mp hf2 with rfl
                    exact hcov
              · simp only [if_neg hcov, Except.ok.injEq] at h
                rw [← h]; exact hInv

/-- Processing a whole results list preserves the harvest invariant. -/
lemma process_results_inv (P : Polygon) (now : String) :
    ∀ (places : List Place) (st st2 : HarvestState), HInv P st →
      process_results P now st places = .ok st2 → HInv P st2 := by
  intro places
  induction places with
  | nil =>
    intro st st2 hInv h
    simp only [process_results, Except.ok.injEq] at h
    rw [← h]; exact hInv
  | cons place rest ih =>
    intro st st2 hInv h
    simp only [process_results] at h
    cases hp : process_place P now st place with
    | error e => rw [hp] at h; simp at h
    | ok stm =>
      rw [hp] at h
      exact ih stm st2 (process_place_inv P now st stm place hInv hp) h

/-- The whole harvest loop preserves the harvest invariant. -/
lemma harvest_loop_inv (P : Polygon)
    (sp : ℚ → ℚ → Option String → Except Unit NearbyResp) (now : String) :
    ∀ (grid : List (ℚ × ℚ)) (st : HarvestState) (calls : ℕ)
      (st2 : HarvestState) (calls2 : ℕ), HInv P st →
      harvest_loop P sp now st calls grid = .ok (st2, calls2) → HInv P st2 := by
  intro grid
  induction grid with
  | nil =>
    intro st calls st2 calls2 hInv h
    simp only [harvest_loop, Except.ok.injEq, Prod.mk.injEq] at h
    rw [← h.1]; exact hInv
  | cons point rest ih =>
    intro st calls st2 calls2 hInv h
    obtain ⟨lat, lon⟩ := point
    simp only [harvest_loop] at h
    cases hsp : (places_nearby (sp lat lon)).1 with
    | error e => rw [hsp] at h; exact ih st calls st2 calls2 hInv h
    | ok resp =>
      simp only [hsp] at h
      cases hpr : process_results P now st (resp.results.getD []) with
      | error e => simp [hpr] at h
      | ok stm =>
        simp only [hpr] at h
        exact ih stm (calls + 1) st2 calls2
          (process_results_inv P now (resp.results.getD []) st stm hInv hpr) h

/-- C1: for every run that succeeds, the final feature list contains no two
entries with the same place_id, and every entry's own coordinate satisfies
the polygon's boundary-inclusive `covers`, independent of which sample
point discovered it. -/
theorem run_dedup_and_coverage (gk : Except String Unit) (P : Polygon)
    (step : ℚ) (fuel : ℕ)
    (sp : ℚ → ℚ → Option String → Except Unit NearbyResp) (now : String)
    (features : List Feature) (n calls : ℕ)
    (h : run_ingestion gk (.ok P) step fuel sp now = .ok features n calls) :
    features.Pairwise (fun a b => a.props.place_id ≠ b.props.place_id)
    ∧ ∀ f ∈ features, P.covers (f.lng, f.lat) = true := by
  unfold run_ingestion at h
  cases gk with
  | error e => simp at h
  | ok u =>
    simp only at h
    cases hgen : generate_grid_points_within_polygon fuel P step with
    | none => simp [hgen] at h
    | some grid =>
      simp only [hgen] at h
      by_cases hemp : grid.isEmpty
      · simp [hemp] at h
      · simp only [hemp, Bool.false_eq_true, if_false, if_neg] at h
        cases hh : harvest_loop P sp now ([], []) 0 grid with
        | error e => simp [hh] at h
        | ok pr =>
          simp only [hh] at h
          obtain ⟨⟨fs, seen⟩, calls2⟩ := pr
          simp only [Except.ok.injEq, RunResult.ok.injEq] at h
          have hInv0 : HInv P ([], []) := ⟨List.Pairwise.nil, by simp, by simp⟩
          have hInv := harvest_loop_inv P sp now grid ([], []) 0 (fs, seen)
            calls2 hInv0 hh
          rw [← h.1]
          exact ⟨hInv.1, hInv.2.2⟩

/-- Witness for C1: a run over one sample point whose upstream returns
`[pA, pA2, pB]` (two results sharing place_id "a") yields the two features
`[fA, fB]`, pairwise distinct on place_id and both covered. -/
theorem run_dedup_and_coverage_witness :
    run_ingestion (.ok ()) (.ok boxAll) 1 5 spDup "T" = .ok [fA, fB] 2 1
    ∧ List.Pairwise (fun a b => a.props.place_id ≠ b.props.place_id) [fA, fB]
    ∧ (boxAll.covers (fA.lng, fA.lat) = true
       ∧ boxAll.covers (fB.lng, fB.lat) = true) := by
  have hrun : run_ingestion (.ok ()) (.ok boxAll) 1 5 spDup "T"
      = .ok [fA, fB] 2 1 := by
    norm_num [run_ingestion, generate_grid_points_within_polygon, grid_walk,
      grid_outer, grid_inner, boxAll, spDup, harvest_loop, process_results,
      process_place, places_nearby, feature_from_place, assembled_props,
      pyOr, pA, pA2, pB, fA, fB]
    rfl
  have hthm := run_dedup_and_coverage (.ok ()) boxAll 1 5 spDup "T"
    [fA, fB] 2 1 hrun
  refine ⟨hrun, hthm.1, hthm.2 fA (by simp), hthm.2 fB (by simp)⟩

/-- C9: when the grid generator yields zero sample points, the run fails
with the distinguishable "Grid empty" response, before any search call
(the outcome does not depend on the search collaborator) and without
producing output. -/
theorem empty_grid_aborts (P : Polygon) (step : ℚ) (fuel : ℕ)
    (sp sp2 : ℚ → ℚ → Option String → Except Unit NearbyResp)
    (now now2 : String)
    (h : generate_grid_points_within_polygon fuel P step = some []) :
    run_ingestion (.ok ()) (.ok P) step fuel sp now = .gridEmpty
    ∧ run_ingestion (.ok ()) (.ok P) step fuel sp now
        = run_ingestion (.ok ()) (.ok P) step fuel sp2 now2
    ∧ (RunResult.gridEmpty ≠ .polygonFailure "Polygon load failed"
       ∧ RunResult.gridEmpty ≠ .keyFailure "Failed to fetch API key"
       ∧ RunResult.gridEmpty ≠ .fuelExhausted) := by
  have hrun : ∀ (s : ℚ → ℚ → Option String → Except Unit NearbyResp)
      (t : String), run_ingestion (.ok ()) (.ok P) step fuel s t = .gridEmpty := by
    intro s t
    unfold run_ingestion
    simp [h]
  exact ⟨hrun sp now, by rw [hrun sp now, hrun sp2 now2], by simp, by simp, by simp⟩

/-- Witness for C9: a polygon covering nothing yields an empty grid and the
run aborts with the "Grid empty" response. -/
theorem empty_grid_aborts_witness :
    generate_grid_points_within_polygon 5 emptyPoly 1 = some []
    ∧ run_ingestion (.ok ()) (.ok emptyPoly) 1 5 spTen "T" = .gridEmpty := by
  have h : generate_grid_points_within_polygon 5 emptyPoly 1 = some [] := by
    norm_num [generate_grid_points_within_polygon, grid_walk, grid_outer,
      grid_inner, emptyPoly]
  exact ⟨h, (empty_grid_aborts emptyPoly 1 5 spTen spTen "T" "T" h).1⟩

/-- C3 (amended): for every coordinate queried, the search client issues
exactly one request, with no continuation token, returns that response's
body unchanged, and never issues a continuation request — any continuation
token in the response is ignored and no inter-page wait occurs. -/
theorem places_nearby_single_request
    (pages : Option String → Except Unit NearbyResp) :
    (places_nearby pages).1 = pages none
    ∧ (places_nearby pages).2 = [none]
    ∧ (places_nearby pages).2.filter (fun t => t.isSome) = [] :=
  ⟨rfl, rfl, rfl⟩

/-- Counterexample for C3: against an upstream whose response carries the
continuation token "tok", the client issues no continuation request at all
(the request log holds no request with a pagetoken), instead of following
the token chain. -/
theorem places_nearby_ignores_token :
    (places_nearby pagesTok).1 = .ok respTok
    ∧ respTok.next_page_token = some "tok"
    ∧ (places_nearby pagesTok).2.filter (fun t => t.isSome) = [] :=
  ⟨rfl, rfl, rfl⟩

/-- C4 (amended): when the search call for one sample point fails, the run
is not aborted — the harvest loop continues with the remaining points
exactly as if the failed point were absent — but the failure is silent: it
is not counted and no `failedPoints` statistic exists among the keys the
run reports. -/
theorem failed_point_skipped (P : Polygon)
    (sp : ℚ → ℚ → Option String → Except Unit NearbyResp) (now : String)
    (st : HarvestState) (calls : ℕ) (lat lon : ℚ) (rest : List (ℚ × ℚ))
    (h : sp lat lon none = .error ()) :
    harvest_loop P sp now st calls ((lat, lon) :: rest)
      = harvest_loop P sp now st calls rest
    ∧ "failedPoints" ∉ run_response_keys := by
  constructor
  · simp [harvest_loop, places_nearby, h]
  · decide

/-- Witness for C4 (amended): the upstream `spTen` fails at latitude 0 and
the harvest loop skips that point. -/
theorem failed_point_skipped_witness :
    spTen 0 0 none = .error ()
    ∧ harvest_loop tenRow spTen "T" ([], []) 0 [(0, 0)]
        = harvest_loop tenRow spTen "T" ([], []) 0 []
    ∧ "failedPoints" ∉ run_response_keys := by
  have h : spTen 0 0 none = .error () := by norm_num [spTen]
  have hthm := failed_point_skipped tenRow spTen "T" ([], []) 0 0 0 [] h
  exact ⟨h, hthm.1, hthm.2⟩

/-- Counterexample for C4: a run over ten sample points whose search call
fails at the first point and succeeds (with empty results) at the other
nine completes with `api_calls = 9`, and the response reports no
`failedPoints` statistic — its keys are exactly message, gcs_uri, file,
total_pois, api_calls and bq_job. -/
theorem run_reports_no_failed_points :
    run_ingestion (.ok ()) (.ok tenRow) 1 12 spTen "T" = .ok [] 0 9
    ∧ spTen 0 0 none = .error ()
    ∧ "failedPoints" ∉ run_response_keys := by
  refine ⟨?_, by norm_num [spTen], by decide⟩
  norm_num [run_ingestion, generate_grid_points_within_polygon, grid_walk,
    grid_outer, grid_inner, tenRow, spTen, harvest_loop, process_results,
    places_nearby]

/-- C5: a raw result that carries a place_id but whose geometry lacks the
`location` object makes the harvest loop's direct subscript raise a
KeyError that aborts the entire run, while the assembler's own
missing-location check would merely have rejected that result. -/
theorem missing_location_aborts_run :
    orphanPlace.place_id = some "pid1"
    ∧ orphanPlace.geometry.map PlaceGeometry.location = some none
    ∧ run_ingestion (.ok ()) (.ok boxAll) 1 5 spOrphan "T"
        = .uncaught .keyError
    ∧ feature_from_place "T" orphanPlace = none := by
  refine ⟨rfl, rfl, ?_, by norm_num [feature_from_place, orphanPlace]⟩
  norm_num [run_ingestion, generate_grid_points_within_polygon, grid_walk,
    grid_outer, grid_inner, boxAll, spOrphan, harvest_loop, process_results,
    process_place, places_nearby, orphanPlace]
  rfl

/-- C8 (amended): geometry loading resolves in this order — the first
feature's geometry for a FeatureCollection, the feature's geometry for a
Feature, otherwise the document itself — and fails when no geometry can be
resolved (for instance an empty FeatureCollection, or a value `shape`
cannot build); but it does not require a polygon-like type: `shape` accepts
any standard geometry type, Polygon and Point alike. -/
theorem geometry_resolution (gj f g : GJ) (fs : List GJ) :
    (gj.type = some "FeatureCollection" → gj.features = some (f :: fs) →
      f.geometry = some g → load_polygon_from_gcs gj = shape g)
    ∧ (gj.type = some "Feature" → gj.geometry = some g →
      load_polygon_from_gcs gj = shape g)
    ∧ (gj.type ≠ some "FeatureCollection" → gj.type ≠ some "Feature" →
      load_polygon_from_gcs gj = shape gj)
    ∧ (gj.type = some "FeatureCollection" → gj.features = some [] →
      load_polygon_from_gcs gj = .error .indexOutOfRange)
    ∧ (g.type = some "Polygon" → shape g = .ok g)
    ∧ (g.type = some "Point" → shape g = .ok g)
    ∧ (g.type = none → shape g = .error .shapeRejected) := by
  refine ⟨?_, ?_, ?_, ?_, ?_, ?_, ?_⟩
  · intro ht hf hg
    simp [load_polygon_from_gcs, resolve_geometry, ht, hf, hg]
  · intro ht hg
    simp [load_polygon_from_gcs, resolve_geometry, ht, hg]
  · intro ht1 ht2
    simp [load_polygon_from_gcs, resolve_geometry, ht1, ht2]
  · intro ht hf
    simp [load_polygon_from_gcs, resolve_geometry, ht, hf]
  · intro ht
    simp [shape, ht, shapely_geom_types]
  · intro ht
    simp [shape, ht, shapely_geom_types]
  · intro ht
    simp [shape, ht]

/-- Counterexample for C8: a bare Point geometry document is accepted by the
loader (it is not polygon-like, yet no `InvalidGeometry` failure occurs). -/
theorem point_geometry_accepted :
    pointDoc.type = some "Point"
    ∧ load_polygon_from_gcs pointDoc = .ok pointDoc
    ∧ pointDoc.type ≠ some "Polygon"
    ∧ pointDoc.type ≠ some "MultiPolygon" := by
  refine ⟨rfl, rfl, by decide, by decide⟩

/-- C10: running the assembler twice on the same raw result gives the same
outcome — the same rejection, or feature records equal in every field
except the `collected_at` timestamp; in particular location rejection,
field mapping and the address fallback are deterministic across runs. -/
theorem assembly_deterministic (place : Place) (now1 now2 : String) :
    (feature_from_place now1 place).map strip_time
      = (feature_from_place now2 place).map strip_time := by
  cases hg : place.geometry with
  | none => simp [feature_from_place, hg]
  | some g =>
    cases hl : g.location with
    | none => simp [feature_from_place, hg, hl]
    | some loc =>
      cases hlat : loc.lat with
      | none => simp [feature_from_place, hg, hl, hlat]
      | some lat =>
        cases hlng : loc.lng with
        | none => simp [feature_from_place, hg, hl, hlat, hlng]
        | some lng =>
          simp [feature_from_place, hg, hl, hlat, hlng, strip_time,
            assembled_props]
